import Mathlib

/-!
Verification of the South African ID validation core of this repository
(`validateSAID` and `formatSAID` in the ID-validation utility module).

Modelling conventions:
* JavaScript strings are modelled as Lean `String` (a sequence of characters);
  `.length` is the character count, which agrees with the JavaScript UTF-16
  code-unit length on the inputs of interest (digits and other BMP text).
* `parseInt` applied to an all-digit substring is the decimal value of its
  digits.
* `new Date(year, monthIndex, day)` is modelled by `jsMakeDate`: ECMAScript
  `MakeDay` normalisation — the month index is reduced modulo 12 with floor
  semantics into the year, and an out-of-range day rolls over into adjacent
  months of the proleptic Gregorian calendar. `getFullYear` / `getMonth` /
  `getDate` read the normalised year, zero-based month and day-of-month.
-/

/-- Result record of `validateSAID`, mirroring the TypeScript return type
`{ isValid; errors; birthDate?; gender?; citizenshipStatus? }`. -/
inductive Gender where
  | male
  | female
deriving DecidableEq, Repr

inductive CitizenshipStatus where
  | citizen
  | permanentResident
deriving DecidableEq, Repr

structure ValidationResult where
  isValid : Bool
  errors : List String
  birthDate : Option (Int × Nat × Int)
  gender : Option Gender
  citizenshipStatus : Option CitizenshipStatus
deriving DecidableEq, Repr

/-- Decimal value of one digit character, as in `parseInt` on a single digit. -/
def digitVal (c : Char) : Nat := c.toNat - 48

/-- `parseInt(idNumber.substring(a, b))` for an all-digit string: the decimal
value of the characters in positions `[a, b)`. -/
def sliceVal (s : String) (a b : Nat) : Nat :=
  ((s.data.drop a).take (b - a)).foldl (fun n c => n * 10 + digitVal c) 0

/-- Gregorian leap-year test, as used by the ECMAScript `Date` calendar. -/
def isLeap (y : Int) : Bool := (y % 4 == 0 && y % 100 != 0) || y % 400 == 0

/-- Number of days of month `m` (1-based) in year `y`. -/
def daysInMonth (y : Int) (m : Nat) : Nat :=
  if m = 2 then (if isLeap y then 29 else 28)
  else if m = 4 ∨ m = 6 ∨ m = 9 ∨ m = 11 then 30
  else 31

/-- Successor month of `(y, m)` in the calendar. -/
def nextYM (y : Int) (m : Nat) : Int × Nat :=
  if m = 12 then (y + 1, 1) else (y, m + 1)

/-- Predecessor month of `(y, m)` in the calendar. -/
def prevYM (y : Int) (m : Nat) : Int × Nat :=
  if m = 1 then (y - 1, 12) else (y, m - 1)

/-- Day-of-month normalisation of the ECMAScript `Date` constructor: starting
from year `y`, month `m ∈ [1,12]` and a possibly out-of-range day `d`, roll
the day over into adjacent months until it lies in `[1, daysInMonth]`. The
fuel bounds the number of month steps; every use in this development supplies
fuel ample for its day range. -/
def normDays : Nat → Int → Nat → Int → Int × Nat × Int
  | 0, y, m, d => (y, m, d)
  | fuel + 1, y, m, d =>
    if d < 1 then
      let p := prevYM y m
      normDays fuel p.1 p.2 (d + daysInMonth p.1 p.2)
    else if (daysInMonth y m : Int) < d then
      normDays fuel (nextYM y m).1 (nextYM y m).2 (d - daysInMonth y m)
    else (y, m, d)

/-- `new Date(y, mIdx, d)` at day granularity: ECMAScript `MakeDay` month
normalisation followed by day normalisation. The result `(Y, M, D)` is read
back by `getFullYear() = Y`, `getMonth() = M - 1` and `getDate() = D`. -/
def jsMakeDate (y : Int) (mIdx : Int) (d : Int) : Int × Nat × Int :=
  normDays 8 (y + mIdx.ediv 12) ((mIdx.emod 12).toNat + 1) d

/-- Century inference: `year < 50 ? 2000 + year : 1900 + year`. -/
def fullYearOf (year : Nat) : Int :=
  if year < 50 then 2000 + (year : Int) else 1900 + (year : Int)

/-- The date-of-birth check of `validateSAID`: the constructed `Date` must
round-trip to the parsed fields, and month/day must be in their coarse
ranges. -/
def dateCheckPasses (fullYear : Int) (month day : Nat) : Bool :=
  let r := jsMakeDate fullYear ((month : Int) - 1) (day : Int)
  r.1 == fullYear && (r.2.1 : Int) - 1 == (month : Int) - 1 &&
    r.2.2 == (day : Int) &&
    decide (1 ≤ month) && decide (month ≤ 12) &&
    decide (1 ≤ day) && decide (day ≤ 31)

/-- The citizenship check: the digit must be 0 or 1. -/
def citizenshipCheckPasses (cit : Nat) : Bool := cit == 0 || cit == 1

/-- One iteration of the checksum loop body: optionally double the digit
(subtracting 9 when the double exceeds 9), add it to the sum, and flip the
alternating flag. -/
def luhnStep (acc : Nat × Bool) (d : Nat) : Nat × Bool :=
  let digit := if acc.2 then (if 9 < d * 2 then d * 2 - 9 else d * 2) else d
  (acc.1 + digit, !acc.2)

/-- The checksum loop `for (i = length - 2; i >= 0; i--)`: the digits before
the check digit, processed right-to-left with the alternating flag starting
`false`. -/
def luhnLoop (ds : List Nat) : Nat × Bool :=
  ds.foldr (fun d acc => luhnStep acc d) (0, false)

/-- The digit values of a string's characters. -/
def digitsOf (s : String) : List Nat := s.data.map digitVal

/-- `calculatedChecksum = (10 - (sum % 10)) % 10` over all digits except the
last (the check digit). -/
def calculatedChecksum (s : String) : Nat :=
  (10 - (luhnLoop (digitsOf s).dropLast).1 % 10) % 10

/-- The checksum check: the calculated check digit must equal the supplied
one at position 12. -/
def checksumCheckPasses (s : String) : Bool :=
  calculatedChecksum s == sliceVal s 12 13

def nonEmptyMsg : String := "ID number must be a non-empty string"

def lengthMsg : String := "ID number must be exactly 13 digits"

def charsetMsg : String := "ID number must contain only digits"

def dateMsg : String := "Invalid date of birth in ID number"

def citizenshipMsg : String := "Citizenship digit must be 0 or 1"

def checksumMsg : String := "ID number has an invalid checksum"

/-- An early-return result: `{ isValid: false, errors }` with one message and
no derived fields. -/
def earlyReject (msg : String) : ValidationResult :=
  { isValid := false, errors := [msg],
    birthDate := none, gender := none, citizenshipStatus := none }

/-- The error list accumulated by the three non-short-circuiting field
checks, pushed in source order: date, citizenship, checksum. -/
def fieldErrors (s : String) : List String :=
  (if dateCheckPasses (fullYearOf (sliceVal s 0 2)) (sliceVal s 2 4) (sliceVal s 4 6)
   then [] else [dateMsg]) ++
  (if citizenshipCheckPasses (sliceVal s 10 11) then [] else [citizenshipMsg]) ++
  (if checksumCheckPasses s then [] else [checksumMsg])

/-- Shallow embedding of `validateSAID`. -/
def validateSAID (idNumber : String) : ValidationResult :=
  if idNumber = "" then earlyReject nonEmptyMsg
  else if idNumber.length ≠ 13 then earlyReject lengthMsg
  else if ¬ (idNumber.data.all Char.isDigit = true) then earlyReject charsetMsg
  else
    let month := sliceVal idNumber 2 4
    let day := sliceVal idNumber 4 6
    let fullYear := fullYearOf (sliceVal idNumber 0 2)
    let birthDate := jsMakeDate fullYear ((month : Int) - 1) (day : Int)
    let errs := fieldErrors idNumber
    { isValid := errs.isEmpty,
      errors := errs,
      birthDate := if errs.isEmpty then some birthDate else none,
      gender := if errs.isEmpty then
          some (if 5000 ≤ sliceVal idNumber 6 10 then Gender.male else Gender.female)
        else none,
      citizenshipStatus := if errs.isEmpty then
          some (if sliceVal idNumber 10 11 = 0 then CitizenshipStatus.citizen
                else CitizenshipStatus.permanentResident)
        else none }

/-- The substring `[a, b)` of a string. -/
def substr (s : String) (a b : Nat) : String :=
  String.mk ((s.data.drop a).take (b - a))

/-- Shallow embedding of `formatSAID`: group a 13-character string as
6-4-3 with single spaces; return anything else unchanged. -/
def formatSAID (idNumber : String) : String :=
  if idNumber = "" ∨ idNumber.length ≠ 13 then idNumber
  else substr idNumber 0 6 ++ " " ++ substr idNumber 6 10 ++ " " ++
    substr idNumber 10 idNumber.length

/-- Doubling rule of the checksum: double a digit and subtract 9 when the
double exceeds 9. -/
def dbl (d : Nat) : Nat := if 9 < d * 2 then d * 2 - 9 else d * 2

/-- Closed form of the checksum loop on an even-length digit list: the digits
at even offsets from the left (string indices 0, 2, 4, ..., 10 on a 12-digit
payload) are doubled, the others kept. -/
def altSum : List Nat → Nat
  | [] => 0
  | [d] => dbl d
  | d :: e :: t => dbl d + e + altSum t

/-- The checksum described by the specification text: the alternating flag
starts true on the first processed digit (the one immediately left of the
check digit), so the digits at odd string indices 11, 9, ..., 1 of the
payload are the doubled ones. Stated for comparison with the code's
`calculatedChecksum`. -/
def specAltSum : List Nat → Nat
  | [] => 0
  | [d] => d
  | d :: e :: t => d + dbl e + specAltSum t

/-- Expected check digit according to the specification's description of the
alternation (doubling string indices 11, 9, ..., 1 of the payload). -/
def specClaimedChecksum (s : String) : Nat :=
  (10 - specAltSum ((digitsOf s).take 12) % 10) % 10

/-- Remove all whitespace characters from a string. -/
def stripWhitespace (s : String) : String :=
  String.mk (s.data.filter (fun c => !c.isWhitespace))

/-! ## Basic facts about the embedded definitions -/

theorem length_empty_string : ("" : String).length = 0 := rfl

theorem ne_empty_of_length_eq (s : String) (h : s.length = 13) : s ≠ "" := by
  intro he
  subst he
  exact absurd h (by decide)

theorem data_mk (l : List Char) : (String.mk l).data = l := rfl

theorem space_data : (" " : String).data = [' '] := rfl

theorem char_digit_bounds (c : Char) (h : c.isDigit = true) :
    48 ≤ c.toNat ∧ c.toNat ≤ 57 := by
  simp only [Char.isDigit, Bool.and_eq_true, decide_eq_true_eq, ge_iff_le] at h
  obtain ⟨h1, h2⟩ := h
  rw [UInt32.le_def, BitVec.le_def] at h1 h2
  exact ⟨h1, h2⟩

theorem digitVal_le_nine (c : Char) (h : c.isDigit = true) : digitVal c ≤ 9 := by
  have := char_digit_bounds c h
  unfold digitVal
  omega

theorem not_whitespace_of_digit (c : Char) (h : c.isDigit = true) :
    c.isWhitespace = false := by
  simp only [Char.isDigit, Bool.and_eq_true, decide_eq_true_eq, ge_iff_le] at h
  obtain ⟨h1, h2⟩ := h
  rw [UInt32.le_def, BitVec.le_def] at h1 h2
  simp only [Char.isWhitespace, Bool.or_eq_false_iff, decide_eq_false_iff_not]
  refine ⟨⟨⟨?_, ?_⟩, ?_⟩, ?_⟩ <;> rintro rfl <;> simp_all

theorem formatSAID_data (s : String) (h13 : s.length = 13) :
    (formatSAID s).data =
      s.data.take 6 ++ ' ' :: ((s.data.drop 6).take 4 ++ ' ' :: s.data.drop 10) := by
  have hne : s ≠ "" := ne_empty_of_length_eq s h13
  have hlen : s.data.length = 13 := h13
  unfold formatSAID
  rw [if_neg (by simp [hne, h13])]
  have h1 : substr s 0 6 = String.mk (s.data.take 6) := by
    simp [substr]
  have h2 : substr s 6 10 = String.mk ((s.data.drop 6).take 4) := rfl
  have h3 : substr s 10 s.length = String.mk (s.data.drop 10) := by
    unfold substr
    congr 1
    apply List.take_of_length_le
    simp [hlen, h13]
  rw [h1, h2, h3]
  simp [String.data_append, data_mk, space_data, List.append_assoc]

theorem take_drop_regroup (s : String) :
    s.data.take 6 ++ ((s.data.drop 6).take 4 ++ s.data.drop 10) = s.data := by
  have h10 : s.data.drop 10 = (s.data.drop 6).drop 4 := by
    rw [List.drop_drop]
  rw [h10, List.take_append_drop, List.take_append_drop]

/-- On a 13-character all-digit input, `validateSAID` reaches the main branch:
the result is assembled from the three field checks. -/
theorem validateSAID_main (s : String) (h13 : s.length = 13)
    (hd : s.data.all Char.isDigit = true) :
    validateSAID s =
      { isValid := (fieldErrors s).isEmpty,
        errors := fieldErrors s,
        birthDate := if (fieldErrors s).isEmpty then
            some (jsMakeDate (fullYearOf (sliceVal s 0 2))
              ((sliceVal s 2 4 : Int) - 1) (sliceVal s 4 6 : Int))
          else none,
        gender := if (fieldErrors s).isEmpty then
            some (if 5000 ≤ sliceVal s 6 10 then Gender.male else Gender.female)
          else none,
        citizenshipStatus := if (fieldErrors s).isEmpty then
            some (if sliceVal s 10 11 = 0 then CitizenshipStatus.citizen
                  else CitizenshipStatus.permanentResident)
          else none } := by
  have hne : s ≠ "" := ne_empty_of_length_eq s h13
  unfold validateSAID
  rw [if_neg hne, if_neg (by simp [h13]), if_neg (by simp [hd])]

/-- Claim C10: the empty string is rejected with exactly the non-empty-string
message, which is distinct from the length message, and no derived fields. -/
theorem C10_empty_string_message :
    validateSAID "" =
      { isValid := false, errors := ["ID number must be a non-empty string"],
        birthDate := none, gender := none, citizenshipStatus := none } ∧
    nonEmptyMsg ≠ lengthMsg := by
  constructor
  · rfl
  · decide

/-- Claim C1 (code bug): evaluating the code at the specified input
"9001085012088" yields `isValid = false` with the checksum error — the code's
Luhn loop computes expected check digit 9 while the supplied digit is 8 —
contradicting the repository's own test, which expects this input to be
valid. -/
theorem C1_code_eval :
    validateSAID "9001085012088" =
      { isValid := false, errors := [checksumMsg],
        birthDate := none, gender := none, citizenshipStatus := none } ∧
    calculatedChecksum "9001085012088" = 9 ∧
    sliceVal "9001085012088" 12 13 = 8 := by
  refine ⟨by decide, by decide, by decide⟩

/-- Claim C3 counterexample: the empty string has length ≠ 13, yet its error
list is not the singleton length message (it is the non-empty-string
message). -/
theorem C3_counterexample :
    ("" : String).length ≠ 13 ∧
    ¬ (validateSAID "").errors = [lengthMsg] := by
  refine ⟨by decide, by decide⟩

/-- Claim C3 (amended): for every non-empty string whose length is not 13,
`validateSAID` returns `isValid = false` with exactly the length message and
no derived fields. -/
theorem C3_length_reject (s : String) (hne : s ≠ "") (h : s.length ≠ 13) :
    validateSAID s =
      { isValid := false, errors := ["ID number must be exactly 13 digits"],
        birthDate := none, gender := none, citizenshipStatus := none } := by
  unfold validateSAID
  rw [if_neg hne, if_pos h]
  rfl

theorem C3_witness :
    "1234" ≠ "" ∧ ("1234" : String).length ≠ 13 ∧
    validateSAID "1234" =
      { isValid := false, errors := ["ID number must be exactly 13 digits"],
        birthDate := none, gender := none, citizenshipStatus := none } :=
  ⟨by decide, by decide, C3_length_reject "1234" (by decide) (by decide)⟩

/-- Claim C9: a 13-character string containing a non-digit is rejected with
exactly the charset message and no derived fields. -/
theorem C9_charset_reject (s : String) (h13 : s.length = 13)
    (hd : s.data.all Char.isDigit = false) :
    validateSAID s =
      { isValid := false, errors := ["ID number must contain only digits"],
        birthDate := none, gender := none, citizenshipStatus := none } := by
  have hne : s ≠ "" := ne_empty_of_length_eq s h13
  unfold validateSAID
  rw [if_neg hne, if_neg (by simp [h13]), if_pos (by simp [hd])]
  rfl

theorem C9_witness :
    ("90010850120X8" : String).length = 13 ∧
    "90010850120X8".data.all Char.isDigit = false ∧
    validateSAID "90010850120X8" =
      { isValid := false, errors := ["ID number must contain only digits"],
        birthDate := none, gender := none, citizenshipStatus := none } :=
  ⟨by decide, by decide, C9_charset_reject "90010850120X8" (by decide) (by decide)⟩

/-- Claim C5: for every input, `isValid` holds exactly when the error list is
empty, and whenever any error is present all three derived fields are
absent. -/
theorem C5_result_invariant (s : String) :
    ((validateSAID s).isValid = true ↔ (validateSAID s).errors = []) ∧
    ((validateSAID s).errors ≠ [] →
      (validateSAID s).birthDate = none ∧
      (validateSAID s).gender = none ∧
      (validateSAID s).citizenshipStatus = none) := by
  unfold validateSAID
  split
  · simp [earlyReject]
  · split
    · simp [earlyReject]
    · split
      · simp [earlyReject]
      · cases h : (fieldErrors s).isEmpty with
        | false =>
          simp only [h]
          constructor
          · constructor
            · intro hc; exact absurd hc (by decide)
            · intro hc
              exact absurd (by rw [hc]; rfl : (fieldErrors s).isEmpty = true)
                (by rw [h]; decide)
          · intro _; exact ⟨rfl, rfl, rfl⟩
        | true =>
          simp only [h]
          constructor
          · simpa using List.isEmpty_iff.mp h
          · intro hc; exact absurd (List.isEmpty_iff.mp h) hc

theorem daysInMonth_ge (y : Int) (m : Nat) : 28 ≤ daysInMonth y m := by
  unfold daysInMonth
  split <;> split <;> omega

theorem daysInMonth_le (y : Int) (m : Nat) : daysInMonth y m ≤ 31 := by
  unfold daysInMonth
  split <;> split <;> omega

theorem nextYM_bounds (y : Int) (m : Nat) (hm1 : 1 ≤ m) (hm2 : m ≤ 12) :
    1 ≤ (nextYM y m).2 ∧ (nextYM y m).2 ≤ 12 := by
  unfold nextYM
  by_cases h : m = 12
  · rw [if_pos h]
    exact ⟨(by omega : 1 ≤ 1), (by omega : 1 ≤ 12)⟩
  · rw [if_neg h]
    exact ⟨(by omega : 1 ≤ m + 1), (by omega : m + 1 ≤ 12)⟩

theorem prevYM_bounds (y : Int) (m : Nat) (hm1 : 1 ≤ m) (hm2 : m ≤ 12) :
    1 ≤ (prevYM y m).2 ∧ (prevYM y m).2 ≤ 12 := by
  unfold prevYM
  by_cases h : m = 1
  · rw [if_pos h]
    exact ⟨(by omega : 1 ≤ 12), (by omega : 12 ≤ 12)⟩
  · rw [if_neg h]
    exact ⟨(by omega : 1 ≤ m - 1), (by omega : m - 1 ≤ 12)⟩

/-- With months in range and a positive day bounded by the available fuel,
`normDays` lands on a month in `[1,12]` and a day in `[1, daysInMonth]`. -/
theorem normDays_range (fuel : Nat) (y : Int) (m : Nat) (d : Int)
    (hm1 : 1 ≤ m) (hm2 : m ≤ 12) (hd1 : 1 ≤ d) (hd2 : d ≤ 28 * fuel + 28) :
    1 ≤ (normDays fuel y m d).2.1 ∧ (normDays fuel y m d).2.1 ≤ 12 ∧
    1 ≤ (normDays fuel y m d).2.2 ∧
    (normDays fuel y m d).2.2 ≤
      (daysInMonth (normDays fuel y m d).1 (normDays fuel y m d).2.1 : Int) := by
  induction fuel generalizing y m d with
  | zero =>
    have h28 : (28 : Int) ≤ (daysInMonth y m : Int) := by
      exact_mod_cast daysInMonth_ge y m
    simp only [normDays]
    exact ⟨hm1, hm2, hd1, by omega⟩
  | succ fuel ih =>
    have hstep : normDays (fuel + 1) y m d =
        if d < 1 then
          let p := prevYM y m
          normDays fuel p.1 p.2 (d + daysInMonth p.1 p.2)
        else if (daysInMonth y m : Int) < d then
          normDays fuel (nextYM y m).1 (nextYM y m).2 (d - daysInMonth y m)
        else (y, m, d) := rfl
    rw [hstep, if_neg (by omega)]
    have h28 : (28 : Int) ≤ (daysInMonth y m : Int) := by
      exact_mod_cast daysInMonth_ge y m
    by_cases hgt : (daysInMonth y m : Int) < d
    · rw [if_pos hgt]
      have hnb := nextYM_bounds y m hm1 hm2
      exact ih _ _ _ hnb.1 hnb.2 (by omega) (by omega)
    · rw [if_neg hgt]
      exact ⟨hm1, hm2, hd1, (by omega : d ≤ (daysInMonth y m : Int))⟩

/-- The call-site instance: fuel 8 suffices for any day value in `[0, 99]`. -/
theorem normDays8_range (y : Int) (m : Nat) (d : Int)
    (hm1 : 1 ≤ m) (hm2 : m ≤ 12) (hd0 : 0 ≤ d) (hd99 : d ≤ 99) :
    1 ≤ (normDays 8 y m d).2.1 ∧ (normDays 8 y m d).2.1 ≤ 12 ∧
    1 ≤ (normDays 8 y m d).2.2 ∧
    (normDays 8 y m d).2.2 ≤
      (daysInMonth (normDays 8 y m d).1 (normDays 8 y m d).2.1 : Int) := by
  by_cases hd1 : 1 ≤ d
  · exact normDays_range 8 y m d hm1 hm2 hd1 (by omega)
  · have hd0' : d = 0 := by omega
    subst hd0'
    have hstep : normDays 8 y m 0 =
        normDays 7 (prevYM y m).1 (prevYM y m).2
          (0 + daysInMonth (prevYM y m).1 (prevYM y m).2) := rfl
    rw [hstep]
    have hpb := prevYM_bounds y m hm1 hm2
    have h28 : (28 : Int) ≤
        (daysInMonth (prevYM y m).1 (prevYM y m).2 : Int) := by
      exact_mod_cast daysInMonth_ge (prevYM y m).1 (prevYM y m).2
    have h31 : (daysInMonth (prevYM y m).1 (prevYM y m).2 : Int) ≤ 31 := by
      exact_mod_cast daysInMonth_le (prevYM y m).1 (prevYM y m).2
    exact normDays_range 7 _ _ _ hpb.1 hpb.2 (by omega) (by omega)

/-- Any `Date` constructed with a day argument in `[0, 99]` reads back a
month in `[1,12]` and a day-of-month in `[1, 31]`. -/
theorem jsMakeDate_range (y mIdx d : Int) (hd0 : 0 ≤ d) (hd99 : d ≤ 99) :
    1 ≤ (jsMakeDate y mIdx d).2.1 ∧ (jsMakeDate y mIdx d).2.1 ≤ 12 ∧
    1 ≤ (jsMakeDate y mIdx d).2.2 ∧ (jsMakeDate y mIdx d).2.2 ≤ 31 := by
  unfold jsMakeDate
  have h0 : 0 ≤ mIdx.emod 12 := Int.emod_nonneg mIdx (by norm_num)
  have h1 : mIdx.emod 12 < 12 := Int.emod_lt_of_pos mIdx (by norm_num)
  have hm1 : 1 ≤ (mIdx.emod 12).toNat + 1 := by omega
  have hm2 : (mIdx.emod 12).toNat + 1 ≤ 12 := by omega
  have hr := normDays8_range (y + mIdx.ediv 12) ((mIdx.emod 12).toNat + 1) d hm1 hm2 hd0 hd99
  have h31 : (daysInMonth (normDays 8 (y + mIdx.ediv 12) ((mIdx.emod 12).toNat + 1) d).1
      (normDays 8 (y + mIdx.ediv 12) ((mIdx.emod 12).toNat + 1) d).2.1 : Int) ≤ 31 := by
    exact_mod_cast daysInMonth_le _ _
  exact ⟨hr.1, hr.2.1, hr.2.2.1, by omega⟩

/-- Folding decimal digits accumulates a value below `(n + 1) * 10 ^ length`. -/
theorem foldl_digits_lt (l : List Char) :
    (∀ c ∈ l, digitVal c ≤ 9) → ∀ n : Nat,
      l.foldl (fun acc c => acc * 10 + digitVal c) n < (n + 1) * 10 ^ l.length := by
  induction l with
  | nil =>
    intro _ n
    simp
  | cons c t ih =>
    intro hl n
    have hc : digitVal c ≤ 9 := hl c (List.mem_cons_self c t)
    have step := ih (fun x hx => hl x (List.mem_cons_of_mem c hx)) (n * 10 + digitVal c)
    simp only [List.foldl_cons, List.length_cons]
    calc t.foldl (fun acc c => acc * 10 + digitVal c) (n * 10 + digitVal c)
        < (n * 10 + digitVal c + 1) * 10 ^ t.length := step
      _ ≤ ((n + 1) * 10) * 10 ^ t.length :=
        Nat.mul_le_mul_right _ (by omega)
      _ = (n + 1) * 10 ^ (t.length + 1) := by
        rw [pow_succ]
        ring

/-- A positional slice of an all-digit string is below `10 ^ width`. -/
theorem sliceVal_lt (s : String) (a b : Nat)
    (hd : s.data.all Char.isDigit = true) : sliceVal s a b < 10 ^ (b - a) := by
  unfold sliceVal
  have hl : ∀ c ∈ (s.data.drop a).take (b - a), digitVal c ≤ 9 := by
    intro c hc
    exact digitVal_le_nine c
      (List.all_eq_true.mp hd c (List.mem_of_mem_drop (List.mem_of_mem_take hc)))
  have hfold := foldl_digits_lt _ hl 0
  have hlen : ((s.data.drop a).take (b - a)).length ≤ b - a := by
    rw [List.length_take]
    exact min_le_left _ _
  calc ((s.data.drop a).take (b - a)).foldl (fun acc c => acc * 10 + digitVal c) 0
      < (0 + 1) * 10 ^ ((s.data.drop a).take (b - a)).length := hfold
    _ = 10 ^ ((s.data.drop a).take (b - a)).length := by ring
    _ ≤ 10 ^ (b - a) := Nat.pow_le_pow_right (by norm_num) hlen

/-- The boolean date check is equivalent to the pure round-trip condition
once the reconstructed date is known to be in range: the explicit month/day
range tests of the source are implied by the round-trip equalities. -/
theorem dateCheck_core (fy Y : Int) (M : Nat) (D : Int) (month day : Nat)
    (h1 : 1 ≤ M) (h2 : M ≤ 12) (h3 : 1 ≤ D) (h4 : D ≤ 31) :
    (Y == fy && (M : Int) - 1 == (month : Int) - 1 && D == (day : Int) &&
      decide (1 ≤ month) && decide (month ≤ 12) &&
      decide (1 ≤ day) && decide (day ≤ 31)) = true ↔
    (Y = fy ∧ (M : Int) - 1 = (month : Int) - 1 ∧ D = (day : Int)) := by
  simp only [Bool.and_eq_true, beq_iff_eq, decide_eq_true_eq]
  omega

theorem dateCheckPasses_iff (fy : Int) (month day : Nat)
    (hday : day ≤ 99) :
    dateCheckPasses fy month day = true ↔
      ((jsMakeDate fy ((month : Int) - 1) (day : Int)).1 = fy ∧
       ((jsMakeDate fy ((month : Int) - 1) (day : Int)).2.1 : Int) - 1 =
         (month : Int) - 1 ∧
       (jsMakeDate fy ((month : Int) - 1) (day : Int)).2.2 = (day : Int)) := by
  have hr := jsMakeDate_range fy ((month : Int) - 1) (day : Int)
    (by omega) (by omega)
  exact dateCheck_core fy _ _ _ month day hr.1 hr.2.1 hr.2.2.1 hr.2.2.2

theorem validateSAID_errors (s : String) (h13 : s.length = 13)
    (hd : s.data.all Char.isDigit = true) :
    (validateSAID s).errors = fieldErrors s := by
  rw [validateSAID_main s h13 hd]

/-- The checksum loop on an even-length digit list computes `altSum` (the
digits at even offsets from the left are the doubled ones) and ends with the
alternating flag back at `false`. -/
theorem luhnLoop_even (ds : List Nat) (h : ds.length % 2 = 0) :
    luhnLoop ds = (altSum ds, false) := by
  induction ds using altSum.induct with
  | case1 => rfl
  | case2 d => simp at h
  | case3 d e t ih =>
    have ht : t.length % 2 = 0 := by
      simp only [List.length_cons] at h
      omega
    unfold luhnLoop at ih ⊢
    simp only [List.foldr_cons]
    rw [ih ht]
    by_cases h9 : 9 < d * 2 <;> simp [luhnStep, altSum, dbl, h9] <;> omega

theorem mem_fieldErrors_date (s : String) :
    dateMsg ∈ fieldErrors s ↔
      dateCheckPasses (fullYearOf (sliceVal s 0 2)) (sliceVal s 2 4)
        (sliceVal s 4 6) = false := by
  have h1 : dateMsg ≠ citizenshipMsg := by decide
  have h2 : dateMsg ≠ checksumMsg := by decide
  cases hd : dateCheckPasses (fullYearOf (sliceVal s 0 2)) (sliceVal s 2 4)
      (sliceVal s 4 6) <;>
    cases hc : citizenshipCheckPasses (sliceVal s 10 11) <;>
      cases hk : checksumCheckPasses s <;>
        simp [fieldErrors, hd, hc, hk, h1, h2]

theorem mem_fieldErrors_cit (s : String) :
    citizenshipMsg ∈ fieldErrors s ↔
      citizenshipCheckPasses (sliceVal s 10 11) = false := by
  have h1 : citizenshipMsg ≠ dateMsg := by decide
  have h2 : citizenshipMsg ≠ checksumMsg := by decide
  cases hd : dateCheckPasses (fullYearOf (sliceVal s 0 2)) (sliceVal s 2 4)
      (sliceVal s 4 6) <;>
    cases hc : citizenshipCheckPasses (sliceVal s 10 11) <;>
      cases hk : checksumCheckPasses s <;>
        simp [fieldErrors, hd, hc, hk, h1, h2]

theorem mem_fieldErrors_chk (s : String) :
    checksumMsg ∈ fieldErrors s ↔ checksumCheckPasses s = false := by
  have h1 : checksumMsg ≠ dateMsg := by decide
  have h2 : checksumMsg ≠ citizenshipMsg := by decide
  cases hd : dateCheckPasses (fullYearOf (sliceVal s 0 2)) (sliceVal s 2 4)
      (sliceVal s 4 6) <;>
    cases hc : citizenshipCheckPasses (sliceVal s 10 11) <;>
      cases hk : checksumCheckPasses s <;>
        simp [fieldErrors, hd, hc, hk, h1, h2]

/-- Claim C6: on a 13-digit input all three field checks contribute
independently — the error list is exactly the concatenation of the date,
citizenship and checksum blocks in that order, and each message is present
exactly when its own check fails. -/
theorem C6_independent_checks (s : String) (h13 : s.length = 13)
    (hd : s.data.all Char.isDigit = true) :
    (validateSAID s).errors =
      (if dateCheckPasses (fullYearOf (sliceVal s 0 2)) (sliceVal s 2 4)
          (sliceVal s 4 6) then [] else [dateMsg]) ++
      (if citizenshipCheckPasses (sliceVal s 10 11) then [] else [citizenshipMsg]) ++
      (if checksumCheckPasses s then [] else [checksumMsg]) ∧
    (dateMsg ∈ (validateSAID s).errors ↔
      dateCheckPasses (fullYearOf (sliceVal s 0 2)) (sliceVal s 2 4)
        (sliceVal s 4 6) = false) ∧
    (citizenshipMsg ∈ (validateSAID s).errors ↔
      citizenshipCheckPasses (sliceVal s 10 11) = false) ∧
    (checksumMsg ∈ (validateSAID s).errors ↔ checksumCheckPasses s = false) := by
  rw [validateSAID_errors s h13 hd]
  exact ⟨rfl, mem_fieldErrors_date s, mem_fieldErrors_cit s, mem_fieldErrors_chk s⟩

theorem C6_witness :
    (validateSAID "9013085012283").errors = [dateMsg, citizenshipMsg, checksumMsg] := by
  rw [(C6_independent_checks "9013085012283" (by decide) (by decide)).1]
  decide

/-- Claim C2 counterexample: on "9001085012085" the alternation described by
the claim (flag true on the first processed digit, doubling string indices
11, 9, ..., 1) yields expected check digit 5, equal to the supplied digit, so
by the claim no checksum error should occur — but the code computes 9 and
reports the checksum error. -/
theorem C2_counterexample :
    specClaimedChecksum "9001085012085" = 5 ∧
    sliceVal "9001085012085" 12 13 = 5 ∧
    calculatedChecksum "9001085012085" = 9 ∧
    checksumMsg ∈ (validateSAID "9001085012085").errors := by
  refine ⟨by decide, by decide, by decide, by decide⟩

/-- Claim C2 (amended): the alternating flag is false on the first processed
digit (string index 11), so the digits at string indices 10, 8, 6, 4, 2, 0
are the doubled ones, and the expected check digit is
`(10 - (sum mod 10)) mod 10`; the checksum error occurs exactly when that
value differs from the supplied check digit. -/
theorem C2_checksum_alternation (s : String) (h13 : s.length = 13)
    (hd : s.data.all Char.isDigit = true) :
    calculatedChecksum s = (10 - altSum ((digitsOf s).take 12) % 10) % 10 ∧
    (checksumMsg ∈ (validateSAID s).errors ↔
      ¬ calculatedChecksum s = sliceVal s 12 13) := by
  have hlen : (digitsOf s).length = 13 := by
    simp only [digitsOf, List.length_map]
    exact h13
  have hdl : (digitsOf s).dropLast = (digitsOf s).take 12 := by
    rw [List.dropLast_eq_take, hlen]
  have heven : ((digitsOf s).take 12).length % 2 = 0 := by
    rw [List.length_take, hlen]
    decide
  constructor
  · unfold calculatedChecksum
    rw [hdl, luhnLoop_even _ heven]
  · rw [validateSAID_errors s h13 hd, mem_fieldErrors_chk s]
    simp [checksumCheckPasses]

theorem C2_witness :
    ("9001085012089" : String).length = 13 ∧
    "9001085012089".data.all Char.isDigit = true ∧
    (calculatedChecksum "9001085012089" =
        (10 - altSum ((digitsOf "9001085012089").take 12) % 10) % 10 ∧
      (checksumMsg ∈ (validateSAID "9001085012089").errors ↔
        ¬ calculatedChecksum "9001085012089" = sliceVal "9001085012089" 12 13)) :=
  ⟨by decide, by decide, C2_checksum_alternation "9001085012089" (by decide) (by decide)⟩

/-- Claim C7: whenever `validateSAID` reports a valid result, the gender is
male exactly when the sequence number at positions [6,10) is at least 5000,
the citizenship status is citizen exactly when the digit at position 10 is 0,
and the birth date is the calendar date reconstructed from the first six
digits. -/
theorem C7_derived_values (s : String) (h : (validateSAID s).isValid = true) :
    (validateSAID s).gender =
      some (if 5000 ≤ sliceVal s 6 10 then Gender.male else Gender.female) ∧
    (validateSAID s).citizenshipStatus =
      some (if sliceVal s 10 11 = 0 then CitizenshipStatus.citizen
            else CitizenshipStatus.permanentResident) ∧
    (validateSAID s).birthDate =
      some (jsMakeDate (fullYearOf (sliceVal s 0 2))
        ((sliceVal s 2 4 : Int) - 1) (sliceVal s 4 6 : Int)) := by
  by_cases hne : s = ""
  · subst hne
    simp [validateSAID, earlyReject] at h
  · by_cases h13 : s.length = 13
    · by_cases hdig : s.data.all Char.isDigit = true
      · rw [validateSAID_main s h13 hdig] at h ⊢
        simp only at h
        simp [h]
      · unfold validateSAID at h
        rw [if_neg hne, if_neg (by simp [h13]), if_pos (by simp [hdig])] at h
        simp [earlyReject] at h
    · unfold validateSAID at h
      rw [if_neg hne, if_pos h13] at h
      simp [earlyReject] at h

theorem C7_witness :
    (validateSAID "9001085012089").gender = some Gender.male ∧
    (validateSAID "9001085012089").citizenshipStatus = some CitizenshipStatus.citizen ∧
    (validateSAID "9001085012089").birthDate = some (1990, 1, 8) := by
  have h := C7_derived_values "9001085012089" (by decide)
  refine ⟨?_, ?_, ?_⟩
  · rw [h.1]; decide
  · rw [h.2.1]; decide
  · rw [h.2.2]; decide

/-- Claim C8: `formatSAID` returns strings of length ≠ 13 unchanged, groups
13-character strings as 6-4-3 with single spaces, and stripping whitespace
from the formatted value of a 13-digit string reproduces it exactly. -/
theorem C8_formatter :
    (∀ s : String, s.length ≠ 13 → formatSAID s = s) ∧
    (∀ s : String, s.length = 13 → (formatSAID s).data =
      s.data.take 6 ++ ' ' :: ((s.data.drop 6).take 4 ++ ' ' :: s.data.drop 10)) ∧
    (∀ s : String, s.length = 13 → s.data.all Char.isDigit = true →
      stripWhitespace (formatSAID s) = s) := by
  refine ⟨?_, fun s h13 => formatSAID_data s h13, ?_⟩
  · intro s h
    unfold formatSAID
    rw [if_pos (Or.inr h)]
  · intro s h13 hd
    have hkeep : ∀ c ∈ s.data, (!c.isWhitespace) = true := by
      intro c hc
      rw [not_whitespace_of_digit c (List.all_eq_true.mp hd c hc)]
      rfl
    unfold stripWhitespace
    rw [formatSAID_data s h13]
    rw [List.filter_append, List.filter_cons_of_neg (by decide),
      List.filter_append, List.filter_cons_of_neg (by decide)]
    rw [List.filter_eq_self.mpr (fun c hc => hkeep c (List.mem_of_mem_take hc)),
      List.filter_eq_self.mpr
        (fun c hc => hkeep c (List.mem_of_mem_drop (List.mem_of_mem_take hc))),
      List.filter_eq_self.mpr (fun c hc => hkeep c (List.mem_of_mem_drop hc))]
    rw [take_drop_regroup s]

theorem C8_witness :
    ("9001085012088" : String).length = 13 ∧
    "9001085012088".data.all Char.isDigit = true ∧
    ("900108" : String).length ≠ 13 ∧
    formatSAID "900108" = "900108" ∧
    stripWhitespace (formatSAID "9001085012088") = "9001085012088" :=
  ⟨by decide, by decide, by decide,
    C8_formatter.1 "900108" (by decide),
    C8_formatter.2.2 "9001085012088" (by decide) (by decide)⟩

/-- Claim C4: on every 13-digit input, with the century-adjusted full year,
the date error is reported exactly when the triple (fullYear, month, day)
fails to round-trip through the constructed calendar date — the source's
extra coarse range tests on month and day are implied by the round-trip
equalities, so they do not change the condition. -/
theorem C4_date_validation (s : String) (h13 : s.length = 13)
    (hd : s.data.all Char.isDigit = true) :
    (dateMsg ∈ (validateSAID s).errors ↔
      ¬ ((jsMakeDate (fullYearOf (sliceVal s 0 2)) ((sliceVal s 2 4 : Int) - 1)
            (sliceVal s 4 6 : Int)).1 = fullYearOf (sliceVal s 0 2) ∧
         ((jsMakeDate (fullYearOf (sliceVal s 0 2)) ((sliceVal s 2 4 : Int) - 1)
            (sliceVal s 4 6 : Int)).2.1 : Int) - 1 = (sliceVal s 2 4 : Int) - 1 ∧
         (jsMakeDate (fullYearOf (sliceVal s 0 2)) ((sliceVal s 2 4 : Int) - 1)
            (sliceVal s 4 6 : Int)).2.2 = (sliceVal s 4 6 : Int))) ∧
    (∀ y : Nat, fullYearOf y =
      if y < 50 then 2000 + (y : Int) else 1900 + (y : Int)) := by
  refine ⟨?_, fun y => rfl⟩
  have hday : sliceVal s 4 6 ≤ 99 := by
    have := sliceVal_lt s 4 6 hd
    norm_num at this
    omega
  rw [validateSAID_errors s h13 hd, mem_fieldErrors_date s, Bool.eq_false_iff]
  exact not_congr (dateCheckPasses_iff (fullYearOf (sliceVal s 0 2))
    (sliceVal s 2 4) (sliceVal s 4 6) hday)

theorem C4_witness :
    dateMsg ∈ (validateSAID "9013085012083").errors :=
  (C4_date_validation "9013085012083" (by decide) (by decide)).1.mpr (by decide)
